import Mathlib

/-!
Verification development for the voice-agent orchestrator.

The definitions below are shallow embeddings of the per-call pipeline code:
the Redis-backed session store (`src/src/redis_client.py` and
`src/src/services/redis_client.py`), the durable call-segment sink
(`src/src/supabase_client.py` as driven by `src/src/core_ai_pipeline.py`),
the SignalWire webhook handler (`src/src/ai_orchestrator.py`), the outbound
call endpoint and task-based media-stream handler (`src/ai_orchestrator.py`),
and the core AI pipeline (`src/src/core_ai_pipeline.py`).

The codebase defines several methods twice (the later definition shadows the
earlier one) and call sites frequently use signatures, methods or attributes
that the effective definitions do not have.  Such calls raise deterministically
(TypeError, AttributeError, redis DataError), so the embedding models them as
error values: a handler fragment evaluates to a `Run` — the externally visible
actions it performed before returning or raising, together with the exception
text when it raised.  External services (ASR results, the LLM, table contents)
enter as oracle parameters.
-/

/-! ## Session store (`src/src/redis_client.py`)

Redis is modelled as an association list from string keys to string values.
Values reach Redis through the redis-py encoder, which accepts strings (and
numbers) but rejects raw Python booleans with a `DataError`.
-/

/-- Python value as passed to `RedisClient.set_call_data`: a string, a raw
boolean, or a dict/list that `set_call_data` has already serialized with
`json.dumps` (represented by its serialized form). -/
inductive PyVal where
  | pstr (s : String)
  | pbool (b : Bool)
  | pjson (s : String)
deriving DecidableEq

/-- The Redis key/value store (`decode_responses=True`, so values are strings). -/
abbrev Store := List (String × String)

/-- Overwrite the value stored at a key. -/
def storeSet (st : Store) (k v : String) : Store :=
  (k, v) :: st.filter (fun p => p.1 ≠ k)

/-- Read the value stored at a key, if any. -/
def storeGet (st : Store) (k : String) : Option String :=
  (st.find? (fun p => p.1 == k)).map (fun p => p.2)

/-- The redis-py encoder applied to the value argument of `Redis.set`:
strings pass through, raw booleans raise
`DataError: Invalid input of type: bool`. -/
def redisEncode : PyVal → Except String String
  | .pstr s => .ok s
  | .pjson s => .ok s
  | .pbool _ => .error "DataError: Invalid input of type: bool"

/-- Key layout `call:<id>:<field>` used by `RedisClient` for per-call data. -/
def callKey (callId field : String) : String :=
  "call:" ++ callId ++ ":" ++ field

/-- Embedding of `RedisClient.set_call_data` (redis_client.py:238): dicts and
lists are serialized with `json.dumps` (arriving here as `PyVal.pjson`), every
other value is handed to `Redis.set` unchanged, so a raw boolean is rejected
by the redis-py encoder and the exception is re-raised. -/
def setCallData (st : Store) (callId field : String) (v : PyVal) : Except String Store :=
  match redisEncode v with
  | .ok s => .ok (storeSet st (callKey callId field) s)
  | .error e => .error e

/-- Embedding of `RedisClient.set_ai_speaking` (redis_client.py:302): stores
`str(is_speaking).lower()`, i.e. the strings "true" and "false". -/
def setAiSpeaking (st : Store) (callId : String) (isSpeaking : Bool) : Store :=
  storeSet st (callKey callId "is_ai_speaking") (if isSpeaking then "true" else "false")

/-- Embedding of `RedisClient.is_ai_speaking` (redis_client.py:313): reads the
key and compares the stored string with "true" (a missing value compares
unequal, giving `false`). -/
def isAiSpeaking (st : Store) (callId : String) : Bool :=
  storeGet st (callKey callId "is_ai_speaking") == some "true"

/-! ## Services session store (`src/src/services/redis_client.py`)

This is the Redis client the task-based handler in `src/ai_orchestrator.py`
imports.  Its per-call API differs from the one above: `get_call_data` takes
only the call id, and `set_call_data` takes `(call_id, data, expiry)`.
-/

/-- Embedding of the services `RedisClient.get_call_data`
(services/redis_client.py:73) together with its Python call protocol: the
method declares exactly one parameter besides self, so a call with two
positional arguments — as the barge-in read at ai_orchestrator.py:166 makes —
raises TypeError before the body runs; a one-argument call reads the
`call:<id>` key. -/
def servicesGetCallData (st : Store) (posArgs : List String) :
    Except String (Option String) :=
  match posArgs with
  | [callId] => .ok (storeGet st ("call:" ++ callId))
  | _ => .error "TypeError: get_call_data takes 2 positional arguments but 3 were given"

/-- Embedding of the services `RedisClient.set_call_data`
(services/redis_client.py:63) as invoked by the media handler with three
positional arguments `(call_id, 'is_ai_speaking', flag)`: the flag binds to
the `expiry` parameter and `setex` rejects the boolean expiry with a redis
DataError, which the method catches, returning False — the store is unchanged
and no exception escapes. -/
def servicesSetSpeakingFlag (st : Store) (callId : String) (flag : Bool) :
    Store × Bool :=
  (st, false)

/-! ## Durable call-segment sink (`call_segments` writer)

`CoreAIPipeline._log_user_message` (core_ai_pipeline.py:119) computes a
sequence number via `_get_next_sequence` and then calls the effective
`SupabaseClient.create_call_segment` (supabase_client.py:659, shadowing the
definition at line 127).
-/

/-- Durable `call_segments` row, with the fields built by
`CoreAIPipeline._log_user_message` / `_log_ai_message`. -/
structure Segment where
  call_id : String
  sequence_number : Nat
  speaker : String
  text_content : String
deriving DecidableEq

/-- Embedding of the effective `SupabaseClient.create_call_segment`
(supabase_client.py:659): it forwards the payload as a `json` keyword
argument to `_make_request` (supabase_client.py:406), whose signature accepts
only `data` and `params`, so Python raises TypeError at the call and no row
is ever inserted. -/
def createCallSegmentEff (db : List Segment) (s : Segment) :
    Except String (List Segment) :=
  .error "TypeError: _make_request got an unexpected keyword argument json"

/-- Embedding of the effective `SupabaseClient.list_records`
(supabase_client.py:471) as invoked for `call_segments`: `_make_request`
opens with `await self._ensure_connection()`, but `_ensure_connection`
(supabase_client.py:45) is synchronous and returns None, so the await raises
TypeError and the PostgREST query — which would carry the doubly-prefixed
filter `call_id=eq.eq.<id>` — is never sent. -/
def listRecordsCallSegments (db : List Segment) (callIdFilterValue : String)
    (lim : Nat) : Except String (List Segment) :=
  .error "TypeError: object NoneType can not be used in await expression"

/-- Embedding of `CoreAIPipeline._get_next_sequence`
(core_ai_pipeline.py:253): it calls `list_records` with
`filters={'call_id': f'eq.{call_id}'}`, `order_by='sequence_number.desc'`
and `limit=1`; the call raises, the except clause logs and returns the
fallback 1, so every segment is assigned sequence number 1. -/
def getNextSequence (db : List Segment) (callId : String) : Nat :=
  match listRecordsCallSegments db ("eq." ++ callId) 1 with
  | .ok (s :: _) => s.sequence_number + 1
  | .ok [] => 1
  | .error _ => 1

/-! ## Pipeline events and handler runs -/

/-- One externally visible action of the media-stream handlers. -/
inductive Ev where
  | readFlag
  | setFlag (b : Bool)
  | setMemory
  | logSegment (speaker text : String)
  | appendTranscript (speaker text : String)
  | llmRequest (prompt : String)
  | sendMedia (idx : Nat)
  | sendMark
  | cancelTask (id : Nat)
  | createTask (id : Nat)
  | incBargeIns
deriving DecidableEq

/-- Whether an event is a TTS media chunk leaving Egress. -/
def isSendMedia : Ev → Bool
  | .sendMedia _ => true
  | _ => false

/-- Whether an event appends an assistant entry to the transcript history. -/
def isAiAppend : Ev → Bool
  | .appendTranscript sp _ => sp == "ai"
  | _ => false

/-- Whether an event appends any entry to the transcript history. -/
def isAppend : Ev → Bool
  | .appendTranscript _ _ => true
  | _ => false

/-- Whether an event writes a durable call segment. -/
def isLogSegment : Ev → Bool
  | .logSegment _ _ => true
  | _ => false

/-- Whether an event issues an LLM request. -/
def isLlmRequest : Ev → Bool
  | .llmRequest _ => true
  | _ => false

/-- Result of running a handler fragment: the externally visible actions it
performed before returning or raising, and the exception text when it
raised. -/
structure Run where
  events : List Ev
  crash : Option String
deriving DecidableEq

/-- Sequential composition with Python exception propagation: when the first
fragment raises, the second never runs. -/
def Run.seq (a b : Run) : Run :=
  match a.crash with
  | some _ => a
  | none => ⟨a.events ++ b.events, b.crash⟩

/-- Python try/except whose handler body is `h` and which ends by
propagating: when `a` raises, `h` runs; if `h` itself raises, its exception
replaces the original, otherwise the original is re-raised. -/
def Run.onCrash (a h : Run) : Run :=
  match a.crash with
  | none => a
  | some e =>
    match h.crash with
    | some e2 => ⟨a.events ++ h.events, some e2⟩
    | none => ⟨a.events ++ h.events, some e⟩

/-! ## Core AI pipeline (`src/src/core_ai_pipeline.py`) -/

/-- Whitespace as recognised by Python `str.strip()` (the characters that
occur in this codebase). -/
def isSpaceChar (c : Char) : Bool :=
  c == ' ' || c == '\t' || c == '\n' || c == '\r'

/-- Drop leading whitespace characters. -/
def dropLeadingSpace : List Char → List Char
  | [] => []
  | c :: cs => if isSpaceChar c then dropLeadingSpace cs else c :: cs

/-- Python `str.strip()`: remove whitespace from both ends. -/
def pyStrip (s : String) : String :=
  ⟨(dropLeadingSpace (dropLeadingSpace s.data).reverse).reverse⟩

/-- One Deepgram streaming result as inspected by the pipeline:
`result.get('event')`, `result.get('is_final', False)`,
`result.get('transcript', '')`. -/
structure DgResult where
  event : Option String
  isFinal : Bool
  transcript : String
deriving DecidableEq

/-- Embedding of `CoreAIPipeline._log_user_message` (core_ai_pipeline.py:119):
the segment payload is built first (its sequence number coming from
`_get_next_sequence`, i.e. always 1), then the effective
`create_call_segment` raises TypeError; the except clause logs and re-raises,
so the Redis transcript append after it never runs and no event is
performed. -/
def logUserMessage (db : List Segment) (callId text : String) : Run :=
  match createCallSegmentEff db ⟨callId, getNextSequence db callId, "user", text⟩ with
  | .ok _ => ⟨[.logSegment "user" text, .appendTranscript "user" text], none⟩
  | .error e => ⟨[], some e⟩

/-- One boolean write of the speaking flag through
`RedisClient.set_call_data`, as performed by `_stream_tts_response`
(core_ai_pipeline.py:187, 227, 231) and `_send_initial_greeting`
(server.py:95, 111, 116): the raw boolean is rejected by the redis encoder,
so the write raises and performs no action. -/
def writeSpeakingFlagRaw (st : Store) (callId : String) (b : Bool) : Run :=
  match setCallData st callId "is_ai_speaking" (.pbool b) with
  | .ok _ => ⟨[.setFlag b], none⟩
  | .error e => ⟨[], some e⟩

/-- Embedding of `CoreAIPipeline._stream_tts_response`
(core_ai_pipeline.py:176): the try block opens with the boolean speaking-flag
write; `rest` stands for the remainder of the try block (opening the TTS
stream, the chunk loop, the assistant logging, the closing flag write).  On
any exception the except clause performs the boolean write with False and the
exception propagates.  Because the opening write raises DataError, `rest`
never runs, whatever it would have done. -/
def streamTtsResponse (st : Store) (callId : String) (rest : Run) : Run :=
  ((writeSpeakingFlagRaw st callId true).seq rest).onCrash
    (writeSpeakingFlagRaw st callId false)

/-- Embedding of the `is_final` branch of `CoreAIPipeline.process_audio_stream`
(core_ai_pipeline.py:89): an empty stripped transcript skips the turn before
any side effect; otherwise `_log_user_message` runs first and `rest` — the
`_generate_ai_response` call and the `_stream_tts_response` streaming that
follow it — runs only if the logging returns. -/
def coreFinalStep (db : List Segment) (callId transcript : String) (rest : Run) :
    Run :=
  let t := pyStrip transcript
  if t == "" then ⟨[], none⟩
  else (logUserMessage db callId t).seq rest

/-- Embedding of one iteration of the Deepgram result loop in
`CoreAIPipeline.process_audio_stream` (core_ai_pipeline.py:79): a
`speech_started` event reads the speaking flag (`is_ai_speaking`, the
`flagRead` oracle) and, when it is set, attempts to clear it through the
boolean `set_call_data` write — which raises — and otherwise falls through to
the `is_final` branch. -/
def coreStep (r : DgResult) (flagRead : Bool) (st : Store) (db : List Segment)
    (callId : String) (rest : Run) : Run :=
  if r.event == some "speech_started" then
    if flagRead then
      Run.seq ⟨[.readFlag], none⟩ (writeSpeakingFlagRaw st callId false)
    else
      Run.seq ⟨[.readFlag], none⟩
        (if r.isFinal then coreFinalStep db callId r.transcript rest else ⟨[], none⟩)
  else if r.isFinal then coreFinalStep db callId r.transcript rest
  else ⟨[], none⟩

/-! ## Task-based media-stream handler (`src/ai_orchestrator.py:127`) -/

/-- An asyncio TTS playback task as the handler observes it: its id, whether
cancellation has been requested (`Task.cancel`), and whether it has finished
(`Task.done`). -/
structure TtsTask where
  id : Nat
  cancelled : Bool
  done : Bool
deriving DecidableEq

/-- `Task.cancel`: request cancellation. -/
def taskCancel (t : TtsTask) : TtsTask :=
  { t with cancelled := true }

/-- Mutable call-scoped state of `_handle_signalwire_media_stream`
(ai_orchestrator.py:127): the tracked `current_tts_task` and the id for the
next task. -/
structure RootState where
  current : Option TtsTask
  nextId : Nat
deriving DecidableEq

/-- State at the start of a media stream: no task yet. -/
def RootState.init : RootState :=
  ⟨none, 0⟩

/-- Embedding of the `speech_started` branch of
`_handle_signalwire_media_stream` (ai_orchestrator.py:164): the barge-in read
calls the services `get_call_data` with two positional arguments and raises
TypeError, so the cancel and barge-in counter lines below it never execute;
the exception propagates out of the handler, whose finally block then tears
the whole call down.  The cancel logic appears only in the (unreachable)
success arm. -/
def rootSpeechStarted (st : Store) (callId : String) (s : RootState) :
    RootState × Run :=
  match servicesGetCallData st [callId, "is_ai_speaking"] with
  | .error e => (s, ⟨[], some e⟩)
  | .ok v =>
    let flag := match v with
      | some v1 => v1 != ""
      | none => false
    match s.current with
    | some t =>
      if flag && !t.done then
        ({ s with current := some (taskCancel t) },
         ⟨[.readFlag, .cancelTask t.id, .incBargeIns], none⟩)
      else (s, ⟨[.readFlag], none⟩)
    | none => (s, ⟨[.readFlag], none⟩)

/-- Outcome of one `GeminiService.generate_response` call
(gemini_service.py:40). -/
inductive GeminiOutcome where
  | ok (text : String)
  | blocked
  | stopCandidate
  | failure
deriving DecidableEq

/-- Embedding of `GeminiService.generate_response` (gemini_service.py:40):
the generated text on success, and a canned utterance for each caught
exception class (blocked prompt, stop candidate, anything else). -/
def generateResponse : GeminiOutcome → String
  | .ok t => t
  | .blocked =>
      "I\x27m sorry, I cannot process that request due to content policy. Can I help with something else?"
  | .stopCandidate =>
      "I\x27m sorry, I\x27m having trouble understanding. Could you please rephrase?"
  | .failure =>
      "I apologize, I encountered an internal error with my brain. Please try again later."

/-- Embedding of the `is_final` branch of `_handle_signalwire_media_stream`
(ai_orchestrator.py:173): a truthy transcript is appended to the transcript
history (the services `rpush` succeeds), Gemini is called (its wrapper always
returns text, substituting a canned utterance on every failure), and a truthy
response updates the conversation memory, attempts the speaking-flag write
(which fails silently, leaving the store unchanged), creates the playback
task, and appends the assistant transcript entry immediately. -/
def rootProcessFinal (st : Store) (callId : String) (s : RootState)
    (transcript : String) (llm : GeminiOutcome) : RootState × Store × Run :=
  if transcript == "" then (s, st, ⟨[], none⟩)
  else
    let pre := [Ev.appendTranscript "user" transcript, Ev.llmRequest transcript]
    let response := generateResponse llm
    if response == "" then (s, st, ⟨pre, none⟩)
    else
      let tid := s.nextId
      let w := servicesSetSpeakingFlag st callId true
      ({ s with current := some ⟨tid, false, false⟩, nextId := tid + 1 },
       w.1,
       ⟨pre ++ [Ev.setMemory, Ev.createTask tid, Ev.appendTranscript "ai" response],
        none⟩)

/-- Embedding of `_tts_playback_coroutine` (ai_orchestrator.py:203) when the
scheduler runs it: the TTS stream yields a first chunk (the ElevenLabs
wrapper, elevenlabs_service.py:100, yields a silent chunk even on error), the
loop body then evaluates `ws.closed` — an attribute the FastAPI WebSocket
does not have — raising AttributeError before any `ws.send`; the except
clause swallows the exception and the finally clause performs the silent
boolean flag write and sets `current_tts_task` to None, whichever task is
tracked at that moment.  The task therefore ends having sent no media
frame. -/
def rootPlaybackTaskRun (st : Store) (callId : String) (s : RootState) :
    RootState × Store × Run :=
  let w := servicesSetSpeakingFlag st callId false
  ({ s with current := none }, w.1, ⟨[], none⟩)

/-! ## Call bring-up webhook (`src/src/ai_orchestrator.py:359`) -/

/-- Body fields of the SignalWire webhook POST, each optional
(`payload.get(...)`). -/
structure WebhookPayload where
  call_id : Option String
  from_number : Option String
  to_number : Option String
  media_url : Option String
  state : Option String
  direction : Option String
  client_state : Option String
deriving DecidableEq

/-- Row of the `phone_numbers` table: only the `ai_agent_id` link matters for
routing. -/
structure PhoneRecord where
  ai_agent_id : Option String
deriving DecidableEq

/-- AI agent configuration record, reduced to the fields the webhook
inspects. -/
structure AgentRecord where
  id : String
  is_active : Bool
deriving DecidableEq

/-- What the webhook handler produces: either an HTTP `Response` with a
status code and the optional `message` field of its JSON body, or — through
the except clause at ai_orchestrator.py:457, which uses `return` rather than
`raise` — an `HTTPException` object built with status 500 from the caught
error. -/
inductive WebhookResult where
  | response (status : Nat) (message : Option String)
  | exceptionValue (error : String)
deriving DecidableEq

/-- Python truthiness of an optional string (`if media_url:`): present and
non-empty. -/
def truthyOpt : Option String → Bool
  | some s => s ≠ ""
  | none => false

/-- Embedding of the effective `SupabaseClient.get_phone_number`
(supabase_client.py:548, shadowing line 149) together with its call protocol:
the method accepts only the phone number, while the webhook call site
(ai_orchestrator.py:384) adds a `by_column` keyword argument, so Python
raises TypeError before any lookup happens. -/
def getPhoneNumberCall (phones : String → Option PhoneRecord) (n : String)
    (kwargs : List String) : Except String (Option PhoneRecord) :=
  match kwargs with
  | [] => .ok (phones n)
  | _ => .error "TypeError: get_phone_number got an unexpected keyword argument by_column"

/-- Embedding of the effective `SupabaseClient.get_ai_agent`
(supabase_client.py:515): its `_make_request` call raises (awaiting the
synchronous `_ensure_connection`), the except clause returns None, so a
caller always sees a missing agent. -/
def getAiAgentEff (agentId : String) : Option AgentRecord :=
  none

/-- Continuation of the answered branch once an agent id is determined
(ai_orchestrator.py:403): fetch the agent configuration — which always comes
back None — and require it to be active, else answer 200 with the
inactive-agent message. -/
def answeredWithAgent (aid : String) : WebhookResult :=
  match getAiAgentEff aid with
  | some a =>
    if a.is_active then .response 200 none
    else .response 200 (some "Agent not found or inactive")
  | none => .response 200 (some "Agent not found or inactive")

/-- Embedding of `signalwire_webhook_handler` (ai_orchestrator.py:359).  On
the answered-inbound path the agent lookup raises TypeError (invalid
`by_column` keyword) and the except clause returns the HTTPException object,
so everything below the lookup — including the 200 "No agent found"
response at line 390 — is unreachable; the success arm models those
unreachable lines.  `parseClientState` stands for
`json.loads(client_state).get('ai_agent_id')` on the outbound path. -/
def signalwireWebhook (p : WebhookPayload)
    (phones : String → Option PhoneRecord)
    (parseClientState : String → Option String) : WebhookResult :=
  if p.state == some "answered" && truthyOpt p.media_url then
    if p.direction == some "inbound" then
      match getPhoneNumberCall phones (p.to_number.getD "") ["by_column"] with
      | .error e => .exceptionValue e
      | .ok r =>
        match r with
        | some pr =>
          match pr.ai_agent_id with
          | some a =>
            if a == "" then .response 200 (some "No agent found")
            else answeredWithAgent a
          | none => .response 200 (some "No agent found")
        | none => .response 200 (some "No agent found")
    else
      let aid : Option String :=
        if p.direction == some "outbound" && truthyOpt p.client_state then
          match p.client_state with
          | some cs =>
            match parseClientState cs with
            | some a => if a == "" then none else some a
            | none => none
          | none => none
        else none
      match aid with
      | none => .response 200 (some "Agent not determined")
      | some a => answeredWithAgent a
  else .response 200 none

/-! ## Outbound call initiation (`src/ai_orchestrator.py:309`) -/

/-- Durable `calls` row as `trigger_outbound_call` would write it. -/
structure CallRecord where
  id : String
  agent_id : String
  to_number : String
  from_number : Option String
  direction : String
  status : String
deriving DecidableEq

/-- The methods the services `SupabaseClient`
(services/supabase_client.py) defines; attribute access for any other name
raises AttributeError. -/
def servicesSupabaseMethods : List String :=
  ["create_api_key", "get_api_key_user", "list_api_keys", "revoke_api_key",
   "create_ai_agent", "get_ai_agent", "list_ai_agents", "update_ai_agent",
   "delete_ai_agent", "create_call", "get_call", "list_calls", "update_call",
   "get_user", "update_user", "get_system_config", "update_system_config"]

/-- Python attribute lookup on the services `SupabaseClient` instance. -/
def servicesSupabaseGetAttr (name : String) : Except String String :=
  if servicesSupabaseMethods.contains name then .ok name
  else .error ("AttributeError: SupabaseClient object has no attribute " ++ name)

/-- Result of the outbound endpoint: the calls table afterwards, the HTTP
status, whether the telephony provider was contacted, and the error the
except clause reported, if any. -/
structure OutboundResult where
  db : List CallRecord
  status : Nat
  providerCalled : Bool
  error : Option String
deriving DecidableEq

/-- Embedding of `trigger_outbound_call` (ai_orchestrator.py:309): after
building the record dict the handler evaluates
`supabase_client_instance.create_call_record` — an attribute the services
`SupabaseClient` does not define (it has `create_call`) — so AttributeError
is raised before any insert; the `initiate_call` line below it (likewise
absent from `SignalWireService`, which defines `make_call`) is never reached,
and the except clause raises HTTPException 500.  The calls table is
unchanged. -/
def triggerOutboundCall (db : List CallRecord) (toNumber agentId : String)
    (fromNumber : Option String) : OutboundResult :=
  match servicesSupabaseGetAttr "create_call_record" with
  | .error e => ⟨db, 500, false, some e⟩
  | .ok _ =>
    ⟨db ++ [⟨"", agentId, toNumber, fromNumber, "outbound", "initiated"⟩],
     200, true, none⟩

/-! ## Helper lemmas -/

/-- Reading a key back from a store right after writing it yields the written
value. -/
theorem storeGet_storeSet (st : Store) (k v : String) :
    storeGet (storeSet st k v) k = some v := by
  simp [storeGet, storeSet]

/-- The message of the exception every boolean speaking-flag write raises. -/
theorem writeSpeakingFlagRaw_crashes (st : Store) (callId : String) (b : Bool) :
    writeSpeakingFlagRaw st callId b
      = ⟨[], some "DataError: Invalid input of type: bool"⟩ := rfl

/-- C6: setting the speaking flag through the store's `set_call_data` with a
boolean and reading it back through `is_ai_speaking` does not observe the
written value: the raw boolean is rejected by the redis encoder so the write
fails and the read still returns false, whereas the unused `set_ai_speaking`
/ `is_ai_speaking` pair does round-trip. -/
theorem C6_speaking_flag_set_then_read_bug :
    setCallData [] "c1" "is_ai_speaking" (.pbool true)
      = .error "DataError: Invalid input of type: bool"
    ∧ isAiSpeaking [] "c1" = false
    ∧ ∀ (st : Store) (c : String) (b : Bool),
        isAiSpeaking (setAiSpeaking st c b) c = b := by
  refine ⟨rfl, rfl, ?_⟩
  intro st c b
  cases b <;> simp [isAiSpeaking, setAiSpeaking, storeGet_storeSet]

/-- C5: a final recognition event with empty transcript triggers no LLM
request, no outbound audio, no durable segment and no transcript append in
the core pipeline — whatever the rest of the turn would do — and the
task-based handler leaves its state, the store and the event log
unchanged. -/
theorem C5_empty_final_transcript_is_ignored
    (r : DgResult) (flagRead : Bool) (st : Store) (db : List Segment)
    (callId : String) (rest : Run) (s : RootState) (g : GeminiOutcome)
    (hFinal : r.isFinal = true) (hEmpty : r.transcript = "") :
    (coreStep r flagRead st db callId rest).events.countP isLlmRequest = 0
    ∧ (coreStep r flagRead st db callId rest).events.countP isSendMedia = 0
    ∧ (coreStep r flagRead st db callId rest).events.countP isAppend = 0
    ∧ (coreStep r flagRead st db callId rest).events.countP isLogSegment = 0
    ∧ rootProcessFinal st callId s "" g = (s, st, ⟨[], none⟩) := by
  have hcf : coreFinalStep db callId r.transcript rest = ⟨[], none⟩ := by
    rw [hEmpty]; rfl
  refine ⟨?_, ?_, ?_, ?_, rfl⟩ <;>
    · unfold coreStep
      rw [hFinal, hcf]
      by_cases he : r.event == some "speech_started" <;>
        by_cases hf : flagRead <;>
          simp [he, hf, Run.seq, writeSpeakingFlagRaw_crashes,
            isLlmRequest, isSendMedia, isAppend, isLogSegment]

/-- Witness for C5 at a concrete empty final transcript and a rest-of-turn
that would have requested the LLM and sent audio. -/
theorem C5_empty_final_transcript_is_ignored_witness :
    (coreStep ⟨none, true, ""⟩ false [] [] "c1"
        ⟨[.llmRequest "q", .sendMedia 0], none⟩).events.countP isLlmRequest = 0
    ∧ (coreStep ⟨none, true, ""⟩ false [] [] "c1"
        ⟨[.llmRequest "q", .sendMedia 0], none⟩).events.countP isSendMedia = 0
    ∧ (coreStep ⟨none, true, ""⟩ false [] [] "c1"
        ⟨[.llmRequest "q", .sendMedia 0], none⟩).events.countP isAppend = 0
    ∧ (coreStep ⟨none, true, ""⟩ false [] [] "c1"
        ⟨[.llmRequest "q", .sendMedia 0], none⟩).events.countP isLogSegment = 0
    ∧ rootProcessFinal [] "c1" RootState.init "" (.ok "y")
        = (RootState.init, [], ⟨[], none⟩) :=
  C5_empty_final_transcript_is_ignored ⟨none, true, ""⟩ false [] [] "c1"
    ⟨[.llmRequest "q", .sendMedia 0], none⟩ RootState.init (.ok "y") rfl rfl

/-- C1: receipt of SpeechStarted never cancels, awaits or clears anything —
whatever the store holds and whatever task is tracked, the barge-in read
itself raises TypeError (wrong arity for the services get_call_data), the
handler state is unchanged (no cancellation is requested) and the exception
propagates, tearing the stream handler down instead of returning it to
listening. -/
theorem C1_barge_in_read_crashes (st : Store) (callId : String) (s : RootState) :
    rootSpeechStarted st callId s
      = (s, ⟨[], some "TypeError: get_call_data takes 2 positional arguments but 3 were given"⟩) := by
  rfl

/-- C2: the speaking-flag protocol around playback never runs.  In the core
pipeline, `_stream_tts_response` aborts on its opening boolean flag write
(DataError) before any chunk, whatever the rest of its body would do; in the
task-based path the flag write fails silently, leaving the store unchanged,
and the playback task ends without emitting a single media frame.  So the
flag is never stored true and no state ever arises in which it brackets chunk
emission. -/
theorem C2_flag_protocol_never_runs (st : Store) (callId : String) (rest : Run)
    (s : RootState) :
    streamTtsResponse st callId rest
      = ⟨[], some "DataError: Invalid input of type: bool"⟩
    ∧ servicesSetSpeakingFlag st callId true = (st, false)
    ∧ (rootPlaybackTaskRun st callId s).2.2.events.countP isSendMedia = 0
    ∧ (rootPlaybackTaskRun st callId s).2.1 = st := by
  exact ⟨rfl, rfl, rfl, rfl⟩

/-- C3: the ordered-append protocol does not execute in the core pipeline: on
any nonempty final the turn crashes inside `_log_user_message` (TypeError
from the shadowed `create_call_segment`) before the user transcript append,
the LLM request and TTS — whatever the rest of the turn would do.  In the
task-based path the assistant entry is appended immediately after the
playback task is created, but with no truncated metadata of any kind. -/
theorem C3_turn_crashes_before_any_append (db : List Segment) (callId : String)
    (rest : Run) (st : Store) (s : RootState) :
    coreFinalStep db callId "hi" rest
      = ⟨[], some "TypeError: _make_request got an unexpected keyword argument json"⟩
    ∧ (rootProcessFinal st callId s "hi" (.ok "ok")).2.2.events
      = [.appendTranscript "user" "hi", .llmRequest "hi", .setMemory,
         .createTask s.nextId, .appendTranscript "ai" "ok"] := by
  exact ⟨rfl, rfl⟩

/-- C7: no TranscriptSegment is ever durably written, so no sequence exists
at all: for every table state the effective `create_call_segment` raises
TypeError before inserting, `_log_user_message` re-raises, and the sequence
query itself never reaches PostgREST — `_get_next_sequence` always returns
the error fallback 1. -/
theorem C7_no_segment_ever_written (db : List Segment) (callId text : String) :
    createCallSegmentEff db ⟨callId, getNextSequence db callId, "user", text⟩
      = .error "TypeError: _make_request got an unexpected keyword argument json"
    ∧ getNextSequence db callId = 1
    ∧ logUserMessage db callId text
      = ⟨[], some "TypeError: _make_request got an unexpected keyword argument json"⟩ := by
  exact ⟨rfl, rfl, rfl⟩

/-- C8: for every phone-number table, an answered inbound webhook ends in the
except clause — the agent lookup raises TypeError on its `by_column` keyword
— which returns an HTTPException object built with status 500, so the 200
response with body "No agent found" is never produced. -/
theorem C8_no_agent_branch_unreachable (toN : Option String)
    (phones : String → Option PhoneRecord) (parse : String → Option String) :
    signalwireWebhook
        ⟨some "c1", some "+15559999", toN, some "wss://media",
         some "answered", some "inbound", none⟩ phones parse
      = .exceptionValue
          "TypeError: get_phone_number got an unexpected keyword argument by_column" := by
  rfl

/-- C9: the fallback protocol on LLM failure does not execute as claimed: the
core pipeline never reaches the LLM at all (the turn crashes earlier, in
`_log_user_message`, so no request event can occur whatever the rest of the
turn would do), while the task-based path does append the canned fallback as
an assistant transcript entry and creates a playback task — but the
speaking-flag write leaves the store unchanged and the task emits no audio
frame, so no fallback utterance is ever spoken and no speaking state is
entered. -/
theorem C9_no_fallback_audio_on_llm_failure (db : List Segment) (st : Store)
    (callId transcript : String) (rest : Run) (s : RootState) :
    (coreFinalStep db callId transcript rest).events.countP isLlmRequest = 0
    ∧ (rootProcessFinal st callId s "hello" .failure).2.2.events.countP
        isAiAppend = 1
    ∧ (rootProcessFinal st callId s "hello" .failure).2.1 = st
    ∧ (rootPlaybackTaskRun st callId
        (rootProcessFinal st callId s "hello" .failure).1).2.2.events.countP
        isSendMedia = 0 := by
  refine ⟨?_, rfl, rfl, rfl⟩
  unfold coreFinalStep
  by_cases h : (pyStrip transcript == "") = true <;>
    simp [h, logUserMessage, createCallSegmentEff, Run.seq]

/-- C10: for every prior table state, the outbound endpoint raises
AttributeError on `create_call_record` (a method the services SupabaseClient
does not define), answers 500, leaves the calls table unchanged — no record
is created — and never contacts the telephony provider. -/
theorem C10_outbound_always_500_no_record (db : List CallRecord)
    (toN aId : String) (fromN : Option String) :
    triggerOutboundCall db toN aId fromN
      = ⟨db, 500, false,
         some "AttributeError: SupabaseClient object has no attribute create_call_record"⟩ := by
  rfl
